import Mathlib

/-!
Shallow embedding of `src/judge_qna_handler/handler.py`: a Flask endpoint
dispatching JSON payloads (batch questions / single question / presets) to a
pluggable query responder, with a mutable `history_accepted` flag.
-/

namespace RagHandler

/-- A decoded JSON value, as produced by `request.get_json()`. Python dicts are
modelled as association lists in insertion order. -/
inductive Json where
  | null : Json
  | bool : Bool → Json
  | num : Int → Json
  | str : String → Json
  | arr : List Json → Json
  | obj : List (String × Json) → Json

/-- First binding of a key in a Python dict (dicts have unique keys, so the
first binding is the binding). -/
def lookupKey (kvs : List (String × Json)) (k : String) : Option Json :=
  match kvs with
  | [] => none
  | (k2, v) :: rest => if k2 = k then some v else lookupKey rest k

/-- Whether a Python dict has the key `k`. -/
def containsKeyB (kvs : List (String × Json)) (k : String) : Bool :=
  match kvs with
  | [] => false
  | (k2, _) :: rest => k2 = k || containsKeyB rest k

/-- Whether the string `needle` occurs as a contiguous substring of `hay`
(Python `needle in hay` on strings). -/
def strContains (hay needle : String) : Bool :=
  (List.range (hay.toList.length + 1)).any
    (fun i => (hay.toList.drop i).take needle.toList.length = needle.toList)

/-- Python `k in data` for a string `k`: key membership for dicts, element
membership for lists (a JSON element equals the string `k` only when it is
that string), substring test for strings; `TypeError` (modelled as
`Except.error`) for `None`, booleans and numbers. -/
def Json.pyContains (data : Json) (k : String) : Except Unit Bool :=
  match data with
  | .obj kvs => .ok (containsKeyB kvs k)
  | .arr xs => .ok (xs.any (fun x => match x with | .str s => s = k | _ => false))
  | .str s => .ok (strContains s k)
  | _ => .error ()

/-- Python `data.get(k, default)`: only dicts have `.get`; any other value
raises `AttributeError` (modelled as `Except.error`). -/
def Json.dictGet (data : Json) (k : String) (default : Json) : Except Unit Json :=
  match data with
  | .obj kvs => .ok ((lookupKey kvs k).getD default)
  | _ => .error ()

/-- Python `data[k]` for a string key `k`: value for a dict that has the key,
`KeyError` for a dict that lacks it, `TypeError` for every non-dict
(list and string subscripts must be integers). -/
def Json.getItem (data : Json) (k : String) : Except Unit Json :=
  match data with
  | .obj kvs =>
    match lookupKey kvs k with
    | some v => .ok v
    | none => .error ()
  | _ => .error ()

/-- Python iteration `for x in v`: the elements of a list, the one-character
strings of a string, the keys of a dict; `TypeError` for `None`, booleans and
numbers. -/
def Json.pyIter (v : Json) : Except Unit (List Json) :=
  match v with
  | .arr xs => .ok xs
  | .str s => .ok (s.toList.map (fun c => .str (String.mk [c])))
  | .obj kvs => .ok (kvs.map (fun kv => .str kv.1))
  | _ => .error ()

/-- Python truthiness `bool(v)` of a JSON value: `None`, `False`, `0`, `""`,
`[]` and `{}` are falsy, everything else truthy. -/
def Json.truthy (v : Json) : Bool :=
  match v with
  | .null => false
  | .bool b => b
  | .num n => n ≠ 0
  | .str s => s ≠ ""
  | .arr xs => !xs.isEmpty
  | .obj kvs => !kvs.isEmpty

/-- Python `v == ""`: across JSON values only the empty string itself equals
the empty string (numbers and booleans never equal a string in Python). -/
def Json.eqEmptyStr (v : Json) : Bool :=
  match v with
  | .str s => s = ""
  | _ => false

mutual

/-- Python `repr(v)` of a JSON value, used by `str()` on containers. -/
def Json.pyRepr : Json → String
  | .null => "None"
  | .bool true => "True"
  | .bool false => "False"
  | .num n => toString n
  | .str s => "\x27" ++ s ++ "\x27"
  | .arr xs => "[" ++ String.intercalate ", " (Json.pyReprList xs) ++ "]"
  | .obj kvs => "\x7b" ++ String.intercalate ", " (Json.pyReprPairs kvs) ++ "\x7d"

/-- `repr` of each element of a list. -/
def Json.pyReprList : List Json → List String
  | [] => []
  | x :: xs => Json.pyRepr x :: Json.pyReprList xs

/-- `repr` of each `key: value` binding of a dict. -/
def Json.pyReprPairs : List (String × Json) → List String
  | [] => []
  | (k, v) :: kvs => ("\x27" ++ k ++ "\x27: " ++ Json.pyRepr v) :: Json.pyReprPairs kvs

end

/-- Python `str(v)` as interpolated by an f-string: a string interpolates as
itself, every other value as its `repr`. -/
def Json.pyStr (v : Json) : String :=
  match v with
  | .str s => s
  | v => v.pyRepr

/-- An HTTP response as produced by the endpoint: a JSON body and a status
code. `jsonify(body)` without an explicit status is status 200 in Flask. -/
structure HttpResponse where
  body : Json
  status : Nat

/-- The `JudgeQnaHandler` object: `route` (endpoint path) and the mutable
`history_accepted` flag. `history_accepted` is initialised as a boolean but
the presets branch stores whatever JSON value the payload carries, so the
field holds an arbitrary JSON value. -/
structure JudgeQnaHandler where
  route : String
  history_accepted : Json

/-- The body of the `try` block inside the `for` loop of
`handle_qestions_list`:
`answer = get_query_response(question["question"])` followed by appending
`{"id": question["id"], "answer": answer}`; any raised exception surfaces as
`Except.error`. -/
def processItem (get_query_response : Json → Except Unit Json)
    (question : Json) : Except Unit Json :=
  match question.getItem "question" with
  | .error e => .error e
  | .ok q =>
    match get_query_response q with
    | .error e => .error e
    | .ok answer =>
      match question.getItem "id" with
      | .error e => .error e
      | .ok i => .ok (Json.obj [("id", i), ("answer", answer)])

/-- The `for question in questions_list` loop of `handle_qestions_list`,
carrying the `answers_list` accumulator: a successful item is appended, a
failing item is logged and skipped. -/
def questionsLoop (get_query_response : Json → Except Unit Json) :
    List Json → List Json → List Json
  | [], answers_list => answers_list
  | question :: rest, answers_list =>
    match processItem get_query_response question with
    | .ok a => questionsLoop get_query_response rest (answers_list ++ [a])
    | .error _ => questionsLoop get_query_response rest answers_list

/-- `JudgeQnaHandler.handle_qestions_list`: iterate over `questions_list`
(raising `TypeError` when it is not iterable) and collect the per-item
results, skipping items whose processing raised. -/
def handle_qestions_list (questions_list : Json)
    (get_query_response : Json → Except Unit Json) : Except Unit (List Json) :=
  match questions_list.pyIter with
  | .error e => .error e
  | .ok items => .ok (questionsLoop get_query_response items [])

/-- `JudgeQnaHandler.handle_qestion`: invoke the responder; on any exception
return the sentinel answer string instead. -/
def handle_qestion (question : Json)
    (get_query_response : Json → Except Unit Json) : Json :=
  match get_query_response question with
  | .ok answer => answer
  | .error _ => Json.str "An error occurred while processing the question."

/-- The body of the `try` block of `endpoint_function` after
`data = request.get_json()`: the three-way key dispatch. Every Python
exception raised inside it surfaces as `Except.error` and is handled by the
caller. -/
def dispatch (self : JudgeQnaHandler) (get_query_function : Json → Except Unit Json)
    (data : Json) : Except Unit (HttpResponse × JudgeQnaHandler) :=
  match data.pyContains "questions" with
  | .error e => .error e
  | .ok true =>
    match data.dictGet "questions" (Json.arr []) with
    | .error e => .error e
    | .ok questions_list =>
      match data.pyContains "chat_history" with
      | .error e => .error e
      | .ok hasHistory =>
        if hasHistory && !self.history_accepted.truthy then
          .ok (⟨Json.obj [("error", Json.str "History is not accepted")], 400⟩, self)
        else
          match handle_qestions_list questions_list get_query_function with
          | .error e => .error e
          | .ok answers_list =>
            .ok (⟨Json.obj [("answer", Json.arr answers_list)], 200⟩, self)
  | .ok false =>
    match data.pyContains "question" with
    | .error e => .error e
    | .ok true =>
      match data.dictGet "question" (Json.str "") with
      | .error e => .error e
      | .ok question =>
        match data.pyContains "chat_history" with
        | .error e => .error e
        | .ok hasHistory =>
          if hasHistory && !self.history_accepted.truthy then
            .ok (⟨Json.obj [("error", Json.str "History is not accepted")], 400⟩, self)
          else
            .ok (⟨Json.obj [("answer", handle_qestion question get_query_function)], 200⟩,
              self)
    | .ok false =>
      match data.pyContains "presets" with
      | .error e => .error e
      | .ok true =>
        match data.dictGet "presets" (Json.obj []) with
        | .error e => .error e
        | .ok presets_data =>
          match presets_data.dictGet "history_accepted" (Json.str "") with
          | .error e => .error e
          | .ok history_accepted =>
            let self2 :=
              if !history_accepted.eqEmptyStr then
                { self with history_accepted := history_accepted }
              else self
            .ok (⟨Json.obj [("response", Json.str "Sucessfully updated"),
              ("message", Json.str ("History accepted: " ++ self2.history_accepted.pyStr))],
              200⟩, self2)
      | .ok false =>
        .ok (⟨Json.obj [("error", Json.str "Missing parameter.")], 400⟩, self)

/-- The whole `try` block of `endpoint_function`:
`data = request.get_json()` (whose failure on a malformed body surfaces as
`Except.error`) followed by the dispatch. -/
def tryDispatch (self : JudgeQnaHandler) (get_query_function : Json → Except Unit Json)
    (getJson : Except Unit Json) : Except Unit (HttpResponse × JudgeQnaHandler) :=
  match getJson with
  | .error e => .error e
  | .ok data => dispatch self get_query_function data

/-- `endpoint_function`: run the `try` block; any exception is caught by the
outermost handler, which logs and returns the generic 500 response. The
result pairs the HTTP response with the handler state after the request. -/
def endpoint_function (self : JudgeQnaHandler)
    (get_query_function : Json → Except Unit Json)
    (getJson : Except Unit Json) : HttpResponse × JudgeQnaHandler :=
  match tryDispatch self get_query_function getJson with
  | .ok result => result
  | .error _ =>
    (⟨Json.obj [("error", Json.str "Error occured while processing the request")], 500⟩,
      self)

/-! ### Helper lemmas -/

theorem lookupKey_some_contains {kvs : List (String × Json)} {k : String} {v : Json}
    (h : lookupKey kvs k = some v) : containsKeyB kvs k = true := by
  induction kvs with
  | nil => simp [lookupKey] at h
  | cons kv rest ih =>
    obtain ⟨k2, v2⟩ := kv
    by_cases hk : k2 = k
    · simp [containsKeyB, hk]
    · rw [lookupKey] at h
      simp only [hk, if_false] at h
      simp [containsKeyB, hk, ih h]

theorem questionsLoop_eq_filterMap (gqr : Json → Except Unit Json)
    (items : List Json) (acc : List Json) :
    questionsLoop gqr items acc =
      acc ++ items.filterMap (fun it => (processItem gqr it).toOption) := by
  induction items generalizing acc with
  | nil => simp [questionsLoop]
  | cons q rest ih =>
    cases hpi : processItem gqr q with
    | ok a => simp [questionsLoop, hpi, ih, Except.toOption]
    | error e => simp [questionsLoop, hpi, ih, Except.toOption]

/-- Characterization of the batch branch: with a `questions` key bound to a
list and the history gate not triggered, the endpoint answers 200 with the
per-item results of the items whose processing succeeded, in order, and the
handler state is unchanged. -/
theorem endpoint_batch (self : JudgeQnaHandler) (gqr : Json → Except Unit Json)
    (kvs : List (String × Json)) (items : List Json)
    (hq : lookupKey kvs "questions" = some (Json.arr items))
    (hnogate : containsKeyB kvs "chat_history" = false ∨
      self.history_accepted.truthy = true) :
    endpoint_function self gqr (Except.ok (Json.obj kvs)) =
      (⟨Json.obj [("answer", Json.arr (items.filterMap
          (fun it => (processItem gqr it).toOption)))], 200⟩, self) := by
  have hc : containsKeyB kvs "questions" = true := lookupKey_some_contains hq
  rcases hnogate with hnh | hacc
  · simp [endpoint_function, tryDispatch, dispatch, Json.pyContains, hc, Json.dictGet, hq,
      hnh, handle_qestions_list, Json.pyIter, questionsLoop_eq_filterMap]
  · simp [endpoint_function, tryDispatch, dispatch, Json.pyContains, hc, Json.dictGet, hq,
      hacc, handle_qestions_list, Json.pyIter, questionsLoop_eq_filterMap]

/-- Characterization of the single-question branch: with no `questions` key,
a `question` key bound to `q` and the history gate not triggered, the
endpoint answers 200 with `handle_qestion q`, and the handler state is
unchanged. -/
theorem endpoint_single (self : JudgeQnaHandler) (gqr : Json → Except Unit Json)
    (kvs : List (String × Json)) (q : Json)
    (hnoqs : containsKeyB kvs "questions" = false)
    (hq : lookupKey kvs "question" = some q)
    (hnogate : containsKeyB kvs "chat_history" = false ∨
      self.history_accepted.truthy = true) :
    endpoint_function self gqr (Except.ok (Json.obj kvs)) =
      (⟨Json.obj [("answer", handle_qestion q gqr)], 200⟩, self) := by
  have hc : containsKeyB kvs "question" = true := lookupKey_some_contains hq
  rcases hnogate with hnh | hacc
  · simp [endpoint_function, tryDispatch, dispatch, Json.pyContains, hnoqs, hc,
      Json.dictGet, hq, hnh]
  · simp [endpoint_function, tryDispatch, dispatch, Json.pyContains, hnoqs, hc,
      Json.dictGet, hq, hacc]

/-- The state update performed by the presets branch of the dispatcher on a
presets dict `pkvs`: read `history_accepted` (defaulting to the empty-string
sentinel) and overwrite the flag when the value read is not the sentinel. -/
def presetsUpdate (self : JudgeQnaHandler) (pkvs : List (String × Json)) :
    JudgeQnaHandler :=
  if !((lookupKey pkvs "history_accepted").getD (Json.str "")).eqEmptyStr then
    { self with history_accepted := (lookupKey pkvs "history_accepted").getD (Json.str "") }
  else self

/-- Characterization of the presets branch: with neither `questions` nor
`question` present and `presets` bound to a dict, the endpoint performs
`presetsUpdate` and answers 200 with the success body showing the current
flag. -/
theorem endpoint_presets (self : JudgeQnaHandler) (gqr : Json → Except Unit Json)
    (kvs : List (String × Json)) (pkvs : List (String × Json))
    (hnoqs : containsKeyB kvs "questions" = false)
    (hnoq : containsKeyB kvs "question" = false)
    (hp : lookupKey kvs "presets" = some (Json.obj pkvs)) :
    endpoint_function self gqr (Except.ok (Json.obj kvs)) =
      (⟨Json.obj [("response", Json.str "Sucessfully updated"),
         ("message", Json.str ("History accepted: " ++
           (presetsUpdate self pkvs).history_accepted.pyStr))], 200⟩,
        presetsUpdate self pkvs) := by
  have hc : containsKeyB kvs "presets" = true := lookupKey_some_contains hp
  simp [endpoint_function, tryDispatch, dispatch, Json.pyContains, hnoqs, hnoq, hc,
    Json.dictGet, hp, presetsUpdate]

/-- Overwriting the flag with the same preset value twice is the same as
overwriting it once. -/
theorem presetsUpdate_idem (self : JudgeQnaHandler) (pkvs : List (String × Json)) :
    presetsUpdate (presetsUpdate self pkvs) pkvs = presetsUpdate self pkvs := by
  by_cases h : ((lookupKey pkvs "history_accepted").getD (Json.str "")).eqEmptyStr = true
  · simp [presetsUpdate, h]
  · simp only [Bool.not_eq_true] at h
    simp [presetsUpdate, h]

/-- A JSON value other than the empty string is not `== ""` in Python. -/
theorem eqEmptyStr_eq_false {v : Json} (h : v ≠ Json.str "") :
    v.eqEmptyStr = false := by
  cases v with
  | str s =>
    simp only [Json.eqEmptyStr, decide_eq_false_iff_not]
    intro hs
    exact h (by rw [hs])
  | null => rfl
  | bool b => rfl
  | num n => rfl
  | arr xs => rfl
  | obj kvs => rfl

/-- A well-formed item whose responder call succeeds is processed into its
`{"id": ..., "answer": ...}` dict. -/
theorem processItem_ok {gqr : Json → Except Unit Json} {it q a i : Json}
    (hq : it.getItem "question" = Except.ok q) (hg : gqr q = Except.ok a)
    (hi : it.getItem "id" = Except.ok i) :
    processItem gqr it = Except.ok (Json.obj [("id", i), ("answer", a)]) := by
  simp [processItem, hq, hg, hi]

/-- When every item is well formed and every responder call succeeds, the
collected batch output has one entry per item and preserves each item's `id`
at its index. -/
theorem filterMap_allOk (gqr : Json → Except Unit Json) (items : List Json)
    (hok : ∀ it ∈ items, ∃ q a i, it.getItem "question" = Except.ok q ∧
      gqr q = Except.ok a ∧ it.getItem "id" = Except.ok i) :
    ∃ answers : List Json,
      items.filterMap (fun it => (processItem gqr it).toOption) = answers ∧
      answers.length = items.length ∧
      ∀ k, k < items.length →
        (answers.getD k Json.null).getItem "id" =
          (items.getD k Json.null).getItem "id" := by
  induction items with
  | nil => exact ⟨[], rfl, rfl, fun k hk => absurd hk (by simp)⟩
  | cons it rest ih =>
    obtain ⟨q, a, i, hq, hg, hi⟩ := hok it (List.mem_cons_self it rest)
    obtain ⟨answers, hfm, hlen, hids⟩ :=
      ih (fun x hx => hok x (List.mem_cons_of_mem it hx))
    refine ⟨Json.obj [("id", i), ("answer", a)] :: answers, ?_, by simp [hlen], ?_⟩
    · have h1 : (processItem gqr it).toOption =
          some (Json.obj [("id", i), ("answer", a)]) := by
        rw [processItem_ok hq hg hi]; rfl
      simp only [List.filterMap_cons, h1]
      rw [hfm]
    · intro k hk
      cases k with
      | zero =>
        simp only [List.getD_cons_zero]
        rw [hi]
        rfl
      | succ k2 =>
        simp only [List.getD_cons_succ]
        exact hids k2 (by simpa using hk)

/-- Whether the request selects the presets branch: the payload decodes, has
no `questions` key and no `question` key, and has a `presets` key. -/
def presetsSelected (getJson : Except Unit Json) : Bool :=
  match getJson with
  | .error _ => false
  | .ok data =>
    match data.pyContains "questions", data.pyContains "question",
        data.pyContains "presets" with
    | .ok false, .ok false, .ok true => true
    | _, _, _ => false

/-! ### Claims -/

/-- C1 (counterexample): on a malformed body (the parse raises), the
dispatcher returns status 500 but the body text is
`"Error occured while processing the request"` (sic), not the
`"Error occurred while processing the request"` the claim states, so the
response body differs from the claimed one. -/
theorem C1_counterexample :
    (endpoint_function ⟨"/get_rag_response", Json.bool false⟩ (fun q => Except.ok q)
        (Except.error ())).1.body =
      Json.obj [("error", Json.str "Error occured while processing the request")] ∧
    (endpoint_function ⟨"/get_rag_response", Json.bool false⟩ (fun q => Except.ok q)
        (Except.error ())).1.status = 500 ∧
    (endpoint_function ⟨"/get_rag_response", Json.bool false⟩ (fun q => Except.ok q)
        (Except.error ())).1.body ≠
      Json.obj [("error", Json.str "Error occurred while processing the request")] := by
  refine ⟨rfl, rfl, ?_⟩
  intro h
  simp only [endpoint_function, tryDispatch, Json.obj.injEq, List.cons.injEq,
    Prod.mk.injEq, Json.str.injEq, and_true, true_and] at h
  exact absurd h (by decide)

/-- C1 (amended): whenever parsing or dispatching raises an uncaught fault,
the dispatcher catches it and returns exactly
`{"error": "Error occured while processing the request"}` (the code's
spelling) with status 500 and an unchanged handler state; no fault ever
propagates (the function is total). -/
theorem C1_safety_net (self : JudgeQnaHandler) (gqr : Json → Except Unit Json)
    (getJson : Except Unit Json)
    (h : tryDispatch self gqr getJson = Except.error ()) :
    endpoint_function self gqr getJson =
      (⟨Json.obj [("error", Json.str "Error occured while processing the request")], 500⟩,
        self) := by
  simp [endpoint_function, h]

theorem C1_safety_net_witness :
    endpoint_function ⟨"/get_rag_response", Json.bool false⟩ (fun q => Except.ok q)
        (Except.error ()) =
      (⟨Json.obj [("error", Json.str "Error occured while processing the request")], 500⟩,
        ⟨"/get_rag_response", Json.bool false⟩) :=
  C1_safety_net ⟨"/get_rag_response", Json.bool false⟩ (fun q => Except.ok q)
    (Except.error ()) rfl

/-- C2: for every batch payload whose `questions` key holds a list of items
each carrying `question` and `id` fields, with the history gate not
triggered and every responder call succeeding, the endpoint returns status
200 with `{"answer": [...]}` where the answer list has the same length as
the input items and the `id` at every index is the input item's `id`
verbatim; the handler state is unchanged. -/
theorem C2_batch_success (self : JudgeQnaHandler) (gqr : Json → Except Unit Json)
    (kvs : List (String × Json)) (items : List Json)
    (hq : lookupKey kvs "questions" = some (Json.arr items))
    (hnogate : containsKeyB kvs "chat_history" = false ∨
      self.history_accepted.truthy = true)
    (hok : ∀ it ∈ items, ∃ q a i, it.getItem "question" = Except.ok q ∧
      gqr q = Except.ok a ∧ it.getItem "id" = Except.ok i) :
    ∃ answers : List Json,
      endpoint_function self gqr (Except.ok (Json.obj kvs)) =
        (⟨Json.obj [("answer", Json.arr answers)], 200⟩, self) ∧
      answers.length = items.length ∧
      ∀ k, k < items.length →
        (answers.getD k Json.null).getItem "id" =
          (items.getD k Json.null).getItem "id" := by
  obtain ⟨answers, hfm, hlen, hids⟩ := filterMap_allOk gqr items hok
  refine ⟨answers, ?_, hlen, hids⟩
  rw [endpoint_batch self gqr kvs items hq hnogate, hfm]

theorem C2_batch_success_witness :
    ∃ answers : List Json,
      endpoint_function ⟨"/get_rag_response", Json.bool false⟩ (fun q => Except.ok q)
          (Except.ok (Json.obj [("questions", Json.arr
            [Json.obj [("id", Json.str "q1"), ("question", Json.str "hi")],
             Json.obj [("id", Json.str "q2"), ("question", Json.str "yo")]])])) =
        (⟨Json.obj [("answer", Json.arr answers)], 200⟩,
          ⟨"/get_rag_response", Json.bool false⟩) ∧
      answers.length = 2 ∧
      ∀ k, k < 2 →
        (answers.getD k Json.null).getItem "id" =
          (([Json.obj [("id", Json.str "q1"), ("question", Json.str "hi")],
             Json.obj [("id", Json.str "q2"), ("question", Json.str "yo")]] :
            List Json).getD k Json.null).getItem "id" :=
  C2_batch_success ⟨"/get_rag_response", Json.bool false⟩ (fun q => Except.ok q)
    [("questions", Json.arr
      [Json.obj [("id", Json.str "q1"), ("question", Json.str "hi")],
       Json.obj [("id", Json.str "q2"), ("question", Json.str "yo")]])]
    [Json.obj [("id", Json.str "q1"), ("question", Json.str "hi")],
     Json.obj [("id", Json.str "q2"), ("question", Json.str "yo")]]
    rfl (Or.inl rfl)
    (by
      intro it hit
      simp only [List.mem_cons, List.not_mem_nil, or_false] at hit
      rcases hit with rfl | rfl
      · exact ⟨Json.str "hi", Json.str "hi", Json.str "q1", rfl, rfl, rfl⟩
      · exact ⟨Json.str "yo", Json.str "yo", Json.str "q2", rfl, rfl, rfl⟩)

/-- C3: for every payload with a `questions` key, and for every payload with
a `question` key but no `questions` key, when the payload also carries a
`chat_history` key and the stored flag is falsy, the endpoint returns
exactly `{"error": "History is not accepted"}` with status 400 and an
unchanged state; the responder `gqr` is universally quantified and never
influences the result, which formalises that it is never invoked. -/
theorem C3_history_gate (self : JudgeQnaHandler) (gqr : Json → Except Unit Json)
    (kvs : List (String × Json))
    (hhist : containsKeyB kvs "chat_history" = true)
    (hacc : self.history_accepted.truthy = false)
    (hbranch : containsKeyB kvs "questions" = true ∨
      (containsKeyB kvs "questions" = false ∧ containsKeyB kvs "question" = true)) :
    endpoint_function self gqr (Except.ok (Json.obj kvs)) =
      (⟨Json.obj [("error", Json.str "History is not accepted")], 400⟩, self) := by
  rcases hbranch with h1 | ⟨h1, h2⟩
  · simp [endpoint_function, tryDispatch, dispatch, Json.pyContains, h1, Json.dictGet,
      hhist, hacc]
  · simp [endpoint_function, tryDispatch, dispatch, Json.pyContains, h1, h2, Json.dictGet,
      hhist, hacc]

theorem C3_history_gate_witness :
    endpoint_function ⟨"/get_rag_response", Json.bool false⟩ (fun _ => Except.error ())
        (Except.ok (Json.obj [("questions", Json.arr
          [Json.obj [("id", Json.str "q1"), ("question", Json.str "hi")]]),
          ("chat_history", Json.arr [])])) =
      (⟨Json.obj [("error", Json.str "History is not accepted")], 400⟩,
        ⟨"/get_rag_response", Json.bool false⟩) :=
  C3_history_gate ⟨"/get_rag_response", Json.bool false⟩ (fun _ => Except.error ())
    [("questions", Json.arr
      [Json.obj [("id", Json.str "q1"), ("question", Json.str "hi")]]),
      ("chat_history", Json.arr [])]
    rfl rfl (Or.inl rfl)

/-- C4: in batch mode (history gate not triggered), the output is exactly
the successfully processed items in input order — an item on which
processing raises contributes no entry and does not abort the batch — and
the status is 200 with unchanged state; in particular, when every item
fails the response is `{"answer": []}` with status 200. -/
theorem C4_batch_failures_skipped (self : JudgeQnaHandler)
    (gqr : Json → Except Unit Json)
    (kvs : List (String × Json)) (items : List Json)
    (hq : lookupKey kvs "questions" = some (Json.arr items))
    (hnogate : containsKeyB kvs "chat_history" = false ∨
      self.history_accepted.truthy = true) :
    endpoint_function self gqr (Except.ok (Json.obj kvs)) =
      (⟨Json.obj [("answer", Json.arr (items.filterMap
          (fun it => (processItem gqr it).toOption)))], 200⟩, self) ∧
    ((∀ it ∈ items, processItem gqr it = Except.error ()) →
      endpoint_function self gqr (Except.ok (Json.obj kvs)) =
        (⟨Json.obj [("answer", Json.arr [])], 200⟩, self)) := by
  refine ⟨endpoint_batch self gqr kvs items hq hnogate, fun hfail => ?_⟩
  rw [endpoint_batch self gqr kvs items hq hnogate]
  have hnil : items.filterMap (fun it => (processItem gqr it).toOption) = [] := by
    rw [List.filterMap_eq_nil_iff]
    intro it hit
    rw [hfail it hit]
    rfl
  rw [hnil]

theorem C4_batch_failures_skipped_witness :
    endpoint_function ⟨"/get_rag_response", Json.bool false⟩ (fun _ => Except.error ())
        (Except.ok (Json.obj [("questions", Json.arr
          [Json.obj [("id", Json.str "q1"), ("question", Json.str "hi")]])])) =
      (⟨Json.obj [("answer", Json.arr [])], 200⟩,
        ⟨"/get_rag_response", Json.bool false⟩) :=
  (C4_batch_failures_skipped ⟨"/get_rag_response", Json.bool false⟩
    (fun _ => Except.error ())
    [("questions", Json.arr
      [Json.obj [("id", Json.str "q1"), ("question", Json.str "hi")]])]
    [Json.obj [("id", Json.str "q1"), ("question", Json.str "hi")]]
    rfl (Or.inl rfl)).2
    (by
      intro it hit
      simp only [List.mem_cons, List.not_mem_nil, or_false] at hit
      subst hit
      rfl)

/-- C5: for a single-question payload (a `question` key, no `questions` key,
history gate not triggered) whose responder call raises, the endpoint
returns exactly `{"answer": "An error occurred while processing the
question."}` with status 200 — not an HTTP error status — and unchanged
state. -/
theorem C5_single_failure_sentinel (self : JudgeQnaHandler)
    (gqr : Json → Except Unit Json)
    (kvs : List (String × Json)) (q : Json)
    (hnoqs : containsKeyB kvs "questions" = false)
    (hq : lookupKey kvs "question" = some q)
    (hnogate : containsKeyB kvs "chat_history" = false ∨
      self.history_accepted.truthy = true)
    (hfail : gqr q = Except.error ()) :
    endpoint_function self gqr (Except.ok (Json.obj kvs)) =
      (⟨Json.obj [("answer",
          Json.str "An error occurred while processing the question.")], 200⟩, self) := by
  rw [endpoint_single self gqr kvs q hnoqs hq hnogate]
  simp [handle_qestion, hfail]

theorem C5_single_failure_sentinel_witness :
    endpoint_function ⟨"/get_rag_response", Json.bool false⟩ (fun _ => Except.error ())
        (Except.ok (Json.obj [("question", Json.str "hi")])) =
      (⟨Json.obj [("answer",
          Json.str "An error occurred while processing the question.")], 200⟩,
        ⟨"/get_rag_response", Json.bool false⟩) :=
  C5_single_failure_sentinel ⟨"/get_rag_response", Json.bool false⟩
    (fun _ => Except.error ()) [("question", Json.str "hi")] (Json.str "hi")
    rfl rfl (Or.inl rfl) rfl

/-- C6: for a presets payload (a `presets` dict, no `questions` or
`question` key): when `history_accepted` reads as the empty-string sentinel
(absent, or present as `""`), the flag is left unchanged; when it is present
with any non-sentinel value `v` of any type, the flag is overwritten with
`v` without validation; in both cases the endpoint returns
`{"response": "Sucessfully updated", "message": "History accepted: <current
flag>"}` with status 200. -/
theorem C6_presets_update (self : JudgeQnaHandler) (gqr : Json → Except Unit Json)
    (kvs : List (String × Json)) (pkvs : List (String × Json))
    (hnoqs : containsKeyB kvs "questions" = false)
    (hnoq : containsKeyB kvs "question" = false)
    (hp : lookupKey kvs "presets" = some (Json.obj pkvs)) :
    ((lookupKey pkvs "history_accepted").getD (Json.str "") = Json.str "" →
      endpoint_function self gqr (Except.ok (Json.obj kvs)) =
        (⟨Json.obj [("response", Json.str "Sucessfully updated"),
           ("message", Json.str ("History accepted: " ++ self.history_accepted.pyStr))],
          200⟩, self)) ∧
    (∀ v, lookupKey pkvs "history_accepted" = some v → v ≠ Json.str "" →
      endpoint_function self gqr (Except.ok (Json.obj kvs)) =
        (⟨Json.obj [("response", Json.str "Sucessfully updated"),
           ("message", Json.str ("History accepted: " ++ v.pyStr))], 200⟩,
          { self with history_accepted := v })) := by
  rw [endpoint_presets self gqr kvs pkvs hnoqs hnoq hp]
  constructor
  · intro hsent
    rw [presetsUpdate, hsent]
    rfl
  · intro v hv hne
    rw [presetsUpdate, hv]
    simp only [Option.getD_some, eqEmptyStr_eq_false hne, Bool.not_false, if_true]

theorem C6_presets_update_witness :
    endpoint_function ⟨"/get_rag_response", Json.bool false⟩ (fun q => Except.ok q)
        (Except.ok (Json.obj [("presets",
          Json.obj [("history_accepted", Json.bool true)])])) =
      (⟨Json.obj [("response", Json.str "Sucessfully updated"),
         ("message", Json.str "History accepted: True")], 200⟩,
        ⟨"/get_rag_response", Json.bool true⟩) :=
  (C6_presets_update ⟨"/get_rag_response", Json.bool false⟩ (fun q => Except.ok q)
    [("presets", Json.obj [("history_accepted", Json.bool true)])]
    [("history_accepted", Json.bool true)]
    rfl rfl rfl).2 (Json.bool true) rfl (fun h => Json.noConfusion h)

/-- C7: after the dispatcher handles
`{"presets": {"history_accepted": true}}`, a subsequent batch payload
carrying a `chat_history` key is not history-gated: it is processed
normally, returning status 200 with the batch answers rather than the 400
`"History is not accepted"` error. -/
theorem C7_history_enabled (self : JudgeQnaHandler)
    (gqr gqr2 : Json → Except Unit Json)
    (kvs : List (String × Json)) (items : List Json)
    (hq : lookupKey kvs "questions" = some (Json.arr items))
    (_hhist : containsKeyB kvs "chat_history" = true) :
    endpoint_function
        ((endpoint_function self gqr (Except.ok (Json.obj
          [("presets", Json.obj [("history_accepted", Json.bool true)])]))).2)
        gqr2 (Except.ok (Json.obj kvs)) =
      (⟨Json.obj [("answer", Json.arr (items.filterMap
          (fun it => (processItem gqr2 it).toOption)))], 200⟩,
        (endpoint_function self gqr (Except.ok (Json.obj
          [("presets", Json.obj [("history_accepted", Json.bool true)])]))).2) := by
  have hs : (endpoint_function self gqr (Except.ok (Json.obj
      [("presets", Json.obj [("history_accepted", Json.bool true)])]))).2 =
      { self with history_accepted := Json.bool true } := rfl
  rw [hs]
  exact endpoint_batch _ gqr2 kvs items hq (Or.inr rfl)

theorem C7_history_enabled_witness :
    endpoint_function
        ((endpoint_function ⟨"/get_rag_response", Json.bool false⟩
          (fun q => Except.ok q) (Except.ok (Json.obj
          [("presets", Json.obj [("history_accepted", Json.bool true)])]))).2)
        (fun q => Except.ok q)
        (Except.ok (Json.obj [("questions", Json.arr
          [Json.obj [("id", Json.str "q1"), ("question", Json.str "hi")]]),
          ("chat_history", Json.arr [])])) =
      (⟨Json.obj [("answer", Json.arr
          [Json.obj [("id", Json.str "q1"), ("answer", Json.str "hi")]])], 200⟩,
        (endpoint_function ⟨"/get_rag_response", Json.bool false⟩
          (fun q => Except.ok q) (Except.ok (Json.obj
          [("presets", Json.obj [("history_accepted", Json.bool true)])]))).2) :=
  C7_history_enabled ⟨"/get_rag_response", Json.bool false⟩
    (fun q => Except.ok q) (fun q => Except.ok q)
    [("questions", Json.arr
      [Json.obj [("id", Json.str "q1"), ("question", Json.str "hi")]]),
      ("chat_history", Json.arr [])]
    [Json.obj [("id", Json.str "q1"), ("question", Json.str "hi")]]
    rfl rfl

/-- C8: handling the same presets payload twice in succession is idempotent:
the handler state after the second call equals the state after the first,
and the two response bodies are identical. -/
theorem C8_presets_idempotent (self : JudgeQnaHandler) (gqr : Json → Except Unit Json)
    (kvs pkvs : List (String × Json))
    (hnoqs : containsKeyB kvs "questions" = false)
    (hnoq : containsKeyB kvs "question" = false)
    (hp : lookupKey kvs "presets" = some (Json.obj pkvs)) :
    (endpoint_function (endpoint_function self gqr (Except.ok (Json.obj kvs))).2
        gqr (Except.ok (Json.obj kvs))).2 =
      (endpoint_function self gqr (Except.ok (Json.obj kvs))).2 ∧
    (endpoint_function (endpoint_function self gqr (Except.ok (Json.obj kvs))).2
        gqr (Except.ok (Json.obj kvs))).1.body =
      (endpoint_function self gqr (Except.ok (Json.obj kvs))).1.body := by
  have h1 := endpoint_presets self gqr kvs pkvs hnoqs hnoq hp
  have h2 := endpoint_presets (presetsUpdate self pkvs) gqr kvs pkvs hnoqs hnoq hp
  simp [h1, h2, presetsUpdate_idem]

theorem C8_presets_idempotent_witness :
    (endpoint_function (endpoint_function ⟨"/get_rag_response", Json.bool false⟩
        (fun q => Except.ok q) (Except.ok (Json.obj [("presets",
          Json.obj [("history_accepted", Json.bool true)])]))).2
        (fun q => Except.ok q) (Except.ok (Json.obj [("presets",
          Json.obj [("history_accepted", Json.bool true)])]))).2 =
      (endpoint_function ⟨"/get_rag_response", Json.bool false⟩
        (fun q => Except.ok q) (Except.ok (Json.obj [("presets",
          Json.obj [("history_accepted", Json.bool true)])]))).2 ∧
    (endpoint_function (endpoint_function ⟨"/get_rag_response", Json.bool false⟩
        (fun q => Except.ok q) (Except.ok (Json.obj [("presets",
          Json.obj [("history_accepted", Json.bool true)])]))).2
        (fun q => Except.ok q) (Except.ok (Json.obj [("presets",
          Json.obj [("history_accepted", Json.bool true)])]))).1.body =
      (endpoint_function ⟨"/get_rag_response", Json.bool false⟩
        (fun q => Except.ok q) (Except.ok (Json.obj [("presets",
          Json.obj [("history_accepted", Json.bool true)])]))).1.body :=
  C8_presets_idempotent ⟨"/get_rag_response", Json.bool false⟩ (fun q => Except.ok q)
    [("presets", Json.obj [("history_accepted", Json.bool true)])]
    [("history_accepted", Json.bool true)] rfl rfl rfl

/-- C9: only the presets branch mutates dispatcher state: whenever the
request does not select the presets branch (it selects the batch branch,
the single-question branch, the no-match branch, or it faults into the
top-level exception handler), the handler state — both `route` and
`history_accepted` — is unchanged after handling; contrapositively, the
state can change only when the presets branch is selected. -/
theorem C9_state_frame (self : JudgeQnaHandler) (gqr : Json → Except Unit Json)
    (getJson : Except Unit Json) (h : presetsSelected getJson = false) :
    (endpoint_function self gqr getJson).2 = self := by
  cases getJson with
  | error e => rfl
  | ok data =>
    simp only [endpoint_function, tryDispatch]
    cases hq : data.pyContains "questions" with
    | error e => simp [dispatch, hq]
    | ok b =>
      cases b with
      | true =>
        cases hg : data.dictGet "questions" (Json.arr []) with
        | error e => simp [dispatch, hq, hg]
        | ok ql =>
          cases hh : data.pyContains "chat_history" with
          | error e => simp [dispatch, hq, hg, hh]
          | ok hb =>
            cases hgate : (hb && !self.history_accepted.truthy) with
            | true => simp [dispatch, hq, hg, hh, hgate]
            | false =>
              cases hl : handle_qestions_list ql gqr with
              | error e => simp [dispatch, hq, hg, hh, hgate, hl]
              | ok al => simp [dispatch, hq, hg, hh, hgate, hl]
      | false =>
        cases hq2 : data.pyContains "question" with
        | error e => simp [dispatch, hq, hq2]
        | ok b2 =>
          cases b2 with
          | true =>
            cases hg : data.dictGet "question" (Json.str "") with
            | error e => simp [dispatch, hq, hq2, hg]
            | ok qv =>
              cases hh : data.pyContains "chat_history" with
              | error e => simp [dispatch, hq, hq2, hg, hh]
              | ok hb =>
                cases hgate : (hb && !self.history_accepted.truthy) with
                | true => simp [dispatch, hq, hq2, hg, hh, hgate]
                | false => simp [dispatch, hq, hq2, hg, hh, hgate]
          | false =>
            cases hp : data.pyContains "presets" with
            | error e => simp [dispatch, hq, hq2, hp]
            | ok b3 =>
              cases b3 with
              | true => simp [presetsSelected, hq, hq2, hp] at h
              | false => simp [dispatch, hq, hq2, hp]

theorem C9_state_frame_witness :
    (endpoint_function ⟨"/get_rag_response", Json.bool false⟩ (fun q => Except.ok q)
        (Except.ok (Json.obj [("x", Json.null)]))).2 =
      ⟨"/get_rag_response", Json.bool false⟩ :=
  C9_state_frame ⟨"/get_rag_response", Json.bool false⟩ (fun q => Except.ok q)
    (Except.ok (Json.obj [("x", Json.null)])) rfl

/-- C10: in batch mode a malformed item — missing the `question` key, or
missing the `id` key even when the responder call on its `question`
succeeds — is dropped exactly like a responder failure: its processing
raises, it contributes no entry to the output, the remaining items are
still processed in order, and the response status is still 200. -/
theorem C10_malformed_item_dropped (self : JudgeQnaHandler)
    (gqr : Json → Except Unit Json)
    (kvs : List (String × Json)) (items : List Json)
    (hq : lookupKey kvs "questions" = some (Json.arr items))
    (hnogate : containsKeyB kvs "chat_history" = false ∨
      self.history_accepted.truthy = true) :
    endpoint_function self gqr (Except.ok (Json.obj kvs)) =
      (⟨Json.obj [("answer", Json.arr (items.filterMap
          (fun it => (processItem gqr it).toOption)))], 200⟩, self) ∧
    ∀ it ∈ items,
      (it.getItem "question" = Except.error () ∨
        (∃ q a, it.getItem "question" = Except.ok q ∧ gqr q = Except.ok a ∧
          it.getItem "id" = Except.error ())) →
      (processItem gqr it).toOption = none := by
  refine ⟨endpoint_batch self gqr kvs items hq hnogate, ?_⟩
  intro it _ hmal
  rcases hmal with hmq | ⟨q, a, hq2, hg, hi⟩
  · simp [processItem, hmq, Except.toOption]
  · simp [processItem, hq2, hg, hi, Except.toOption]

theorem C10_malformed_item_dropped_witness :
    endpoint_function ⟨"/get_rag_response", Json.bool false⟩ (fun q => Except.ok q)
        (Except.ok (Json.obj [("questions", Json.arr
          [Json.obj [("id", Json.str "q1")],
           Json.obj [("id", Json.str "q2"), ("question", Json.str "hi")],
           Json.obj [("question", Json.str "yo")]])])) =
      (⟨Json.obj [("answer", Json.arr
          [Json.obj [("id", Json.str "q2"), ("answer", Json.str "hi")]])], 200⟩,
        ⟨"/get_rag_response", Json.bool false⟩) :=
  (C10_malformed_item_dropped ⟨"/get_rag_response", Json.bool false⟩
    (fun q => Except.ok q)
    [("questions", Json.arr
      [Json.obj [("id", Json.str "q1")],
       Json.obj [("id", Json.str "q2"), ("question", Json.str "hi")],
       Json.obj [("question", Json.str "yo")]])]
    [Json.obj [("id", Json.str "q1")],
     Json.obj [("id", Json.str "q2"), ("question", Json.str "hi")],
     Json.obj [("question", Json.str "yo")]]
    rfl (Or.inl rfl)).1

end RagHandler
